import Mathlib

/-!
Verification of `src/ReLM-main/run_multi.py` against its specification.

The development shallowly embeds the parts of `run_multi.py` that the
claims are about: the noise injector `mask_tokens` (lines 25-49), the
checkpoint retention pool (lines 433-441), the training-loop step
accounting (lines 291-299, 337-347, 467-469), the startup task-name
check (lines 157-161), the evaluation/test routing (lines 261-270,
470-479) and the SEQ label-vocabulary construction (lines 186-188,
269-270, 478-479).

Rank-2 tensors of token ids are embedded as functions `ℕ → ℕ → ℤ`
(row, column ↦ token id), rank-1 tensors as `ℕ → ℤ`, probabilities as
`ℚ`, and the outcome of the random Bernoulli draws as an arbitrary
boolean-valued function, so that every theorem quantifies over every
possible outcome of the randomness.
-/

/-- The tokenizer collaborator, as used by `mask_tokens`: a per-token-id
special-token predicate (`tokenizer.get_special_tokens_mask(...,
already_has_special_tokens=True)` applied elementwise) and the mask-token
id (`tokenizer.convert_tokens_to_ids(tokenizer.mask_token)`). -/
structure Tokenizer where
  isSpecial : ℤ → Bool
  mask_token_id : ℤ

/-- One `torch.bernoulli` draw with success probability `p`: surely
`false` at probability `0` (or below), surely `true` at probability `1`
(or above), and otherwise the value of the underlying random draw `d`. -/
def bern (p : ℚ) (d : Bool) : Bool :=
  if p ≤ 0 then false else if 1 ≤ p then true else d

/-- `tensor.masked_fill_(cond, value)` on a rank-2 probability tensor:
every position where `cond` holds is overwritten with `value`. -/
def masked_fill (m : ℕ → ℕ → ℚ) (cond : ℕ → ℕ → Bool) (value : ℚ) : ℕ → ℕ → ℚ :=
  fun i j => if cond i j then value else m i j

/-- run_multi.py lines 28-45: the probability matrix of `mask_tokens`.
It starts as `torch.full(inputs.shape, noise_probability)`; positions of
rows whose `task_id` differs from `1` are zeroed
(`probability_matrix.masked_fill_(task_ids_expand != csc_task_matrix, 0.0)`),
then special-token positions are zeroed, then - depending on
`mask_mode` - positions with `inputs != targets` (mode `"noerror"`) or
`inputs == targets` (mode `"error"`) are zeroed; any other mode leaves
the matrix unchanged (the source asserts `mask_mode == "all"` there). -/
def probability_matrix (inputs targets : ℕ → ℕ → ℤ) (task_ids : ℕ → ℤ)
    (tok : Tokenizer) (mask_mode : String) (noise_probability : ℚ) : ℕ → ℕ → ℚ :=
  let pm0 : ℕ → ℕ → ℚ := fun _ _ => noise_probability
  let pm1 := masked_fill pm0 (fun i _ => task_ids i != 1) 0
  let pm2 := masked_fill pm1 (fun i j => tok.isSpecial (inputs i j)) 0
  if mask_mode = "noerror" then masked_fill pm2 (fun i j => inputs i j != targets i j) 0
  else if mask_mode = "error" then masked_fill pm2 (fun i j => inputs i j == targets i j) 0
  else pm2

/-- run_multi.py line 46: `masked_indices = torch.bernoulli(probability_matrix).bool()`,
with `draw i j` the outcome of the random draw at position `(i, j)`. -/
def masked_indices (inputs targets : ℕ → ℕ → ℤ) (task_ids : ℕ → ℤ)
    (tok : Tokenizer) (mask_mode : String) (noise_probability : ℚ)
    (draw : ℕ → ℕ → Bool) : ℕ → ℕ → Bool :=
  fun i j =>
    bern (probability_matrix inputs targets task_ids tok mask_mode noise_probability i j)
      (draw i j)

/-- run_multi.py lines 25-49: the value of the tensor returned by
`mask_tokens` (the clone of `inputs` with
`inputs[masked_indices] = tokenizer.convert_tokens_to_ids(tokenizer.mask_token)`
applied). -/
def mask_tokens (inputs targets : ℕ → ℕ → ℤ) (task_ids : ℕ → ℤ)
    (tok : Tokenizer) (mask_mode : String) (noise_probability : ℚ)
    (draw : ℕ → ℕ → Bool) : ℕ → ℕ → ℤ :=
  fun i j =>
    if masked_indices inputs targets task_ids tok mask_mode noise_probability draw i j then
      tok.mask_token_id
    else inputs i j

lemma bern_zero (d : Bool) : bern 0 d = false := by
  simp [bern]

lemma prob_noerror_of_ne (inputs targets : ℕ → ℕ → ℤ) (task_ids : ℕ → ℤ)
    (tok : Tokenizer) (noise_probability : ℚ) (i j : ℕ)
    (hne : inputs i j ≠ targets i j) :
    probability_matrix inputs targets task_ids tok "noerror" noise_probability i j = 0 := by
  simp [probability_matrix, masked_fill, hne]

lemma prob_error_of_eq (inputs targets : ℕ → ℕ → ℤ) (task_ids : ℕ → ℤ)
    (tok : Tokenizer) (noise_probability : ℚ) (i j : ℕ)
    (heq : inputs i j = targets i j) :
    probability_matrix inputs targets task_ids tok "error" noise_probability i j = 0 := by
  simp [probability_matrix, masked_fill, heq]

lemma prob_task_ne_one (inputs targets : ℕ → ℕ → ℤ) (task_ids : ℕ → ℤ)
    (tok : Tokenizer) (mask_mode : String) (noise_probability : ℚ) (i j : ℕ)
    (h : task_ids i ≠ 1) :
    probability_matrix inputs targets task_ids tok mask_mode noise_probability i j = 0 := by
  by_cases h1 : mask_mode = "noerror" <;> by_cases h2 : mask_mode = "error" <;>
    simp [probability_matrix, masked_fill, h1, h2, h]

lemma prob_special (inputs targets : ℕ → ℕ → ℤ) (task_ids : ℕ → ℤ)
    (tok : Tokenizer) (mask_mode : String) (noise_probability : ℚ) (i j : ℕ)
    (h : tok.isSpecial (inputs i j) = true) :
    probability_matrix inputs targets task_ids tok mask_mode noise_probability i j = 0 := by
  by_cases h1 : mask_mode = "noerror" <;> by_cases h2 : mask_mode = "error" <;>
    simp [probability_matrix, masked_fill, h1, h2, h]

/-- Claim C2: for every input batch and every outcome of the random
draws, a position masked under mode `"noerror"` had `input = target`
before masking, and a position masked under mode `"error"` had
`input ≠ target` before masking. -/
theorem mask_tokens_mode_filter (inputs targets : ℕ → ℕ → ℤ) (task_ids : ℕ → ℤ)
    (tok : Tokenizer) (noise_probability : ℚ) (draw : ℕ → ℕ → Bool) (i j : ℕ) :
    (masked_indices inputs targets task_ids tok "noerror" noise_probability draw i j = true →
      inputs i j = targets i j)
    ∧ (masked_indices inputs targets task_ids tok "error" noise_probability draw i j = true →
      inputs i j ≠ targets i j) := by
  constructor
  · intro h
    by_contra hne
    rw [masked_indices, prob_noerror_of_ne inputs targets task_ids tok noise_probability i j hne,
      bern_zero] at h
    exact Bool.false_ne_true h
  · intro h heq
    rw [masked_indices, prob_error_of_eq inputs targets task_ids tok noise_probability i j heq,
      bern_zero] at h
    exact Bool.false_ne_true h

def c_inputs5 : ℕ → ℕ → ℤ := fun _ _ => 5

def c_targets6 : ℕ → ℕ → ℤ := fun _ _ => 6

def c_task1 : ℕ → ℤ := fun _ => 1

def c_task0 : ℕ → ℤ := fun _ => 0

def c_tok : Tokenizer := ⟨fun _ => false, 103⟩

def c_tok_sp : Tokenizer := ⟨fun _ => true, 103⟩

def c_draw : ℕ → ℕ → Bool := fun _ _ => true

/-- Witness for C2: at rate 1 on a CSC row with no special tokens, the
position (0,0) is in fact masked in both modes, and the conclusions hold
there. -/
theorem mask_tokens_mode_filter_witness :
    (masked_indices c_inputs5 c_inputs5 c_task1 c_tok "noerror" 1 c_draw 0 0 = true
      ∧ c_inputs5 0 0 = c_inputs5 0 0)
    ∧ (masked_indices c_inputs5 c_targets6 c_task1 c_tok "error" 1 c_draw 0 0 = true
      ∧ c_inputs5 0 0 ≠ c_targets6 0 0) :=
  ⟨⟨by decide,
    (mask_tokens_mode_filter c_inputs5 c_inputs5 c_task1 c_tok 1 c_draw 0 0).1 (by decide)⟩,
   ⟨by decide,
    (mask_tokens_mode_filter c_inputs5 c_targets6 c_task1 c_tok 1 c_draw 0 0).2 (by decide)⟩⟩

/-- Claim C3: under every mode and every outcome of the random draws, a
row whose `task_id` differs from 1 is returned unmodified (position for
position), and a position holding a special token is never masked. -/
theorem mask_tokens_seq_and_special (inputs targets : ℕ → ℕ → ℤ) (task_ids : ℕ → ℤ)
    (tok : Tokenizer) (mask_mode : String) (noise_probability : ℚ)
    (draw : ℕ → ℕ → Bool) (i j : ℕ) :
    (task_ids i ≠ 1 →
      mask_tokens inputs targets task_ids tok mask_mode noise_probability draw i j = inputs i j)
    ∧ (tok.isSpecial (inputs i j) = true →
      masked_indices inputs targets task_ids tok mask_mode noise_probability draw i j = false) := by
  constructor
  · intro h
    rw [mask_tokens, masked_indices,
      prob_task_ne_one inputs targets task_ids tok mask_mode noise_probability i j h, bern_zero]
    simp
  · intro h
    rw [masked_indices,
      prob_special inputs targets task_ids tok mask_mode noise_probability i j h, bern_zero]

/-- Witness for C3: a SEQ row (task id 0) passes through unmodified even
at rate 1 with an always-true draw, and a special-token position on a CSC
row is not masked. -/
theorem mask_tokens_seq_and_special_witness :
    (mask_tokens c_inputs5 c_targets6 c_task0 c_tok "all" 1 c_draw 0 0 = c_inputs5 0 0)
    ∧ (masked_indices c_inputs5 c_targets6 c_task1 c_tok_sp "all" 1 c_draw 0 0 = false) :=
  ⟨(mask_tokens_seq_and_special c_inputs5 c_targets6 c_task0 c_tok "all" 1 c_draw 0 0).1
      (by decide),
   (mask_tokens_seq_and_special c_inputs5 c_targets6 c_task1 c_tok_sp "all" 1 c_draw 0 0).2
      (by decide)⟩

/-- The ordering used by run_multi.py line 438,
`best_result.sort(key=lambda x: x[0], reverse=True)`: descending in the
first component (the evaluation F1, embedded as `ℚ`; the second component
is the checkpoint file path, embedded as `ℕ`). -/
def poolOrder (a b : ℚ × ℕ) : Prop := b.1 ≤ a.1

instance : DecidableRel poolOrder := fun a b => inferInstanceAs (Decidable (b.1 ≤ a.1))

instance : IsTotal (ℚ × ℕ) poolOrder := ⟨fun a b => le_total b.1 a.1⟩

instance : IsTrans (ℚ × ℕ) poolOrder := ⟨fun _ _ _ hab hbc => le_trans hbc hab⟩

/-- The state of the checkpoint retention manager: the `best_result`
list of `(eval_f1, checkpoint_path)` pairs, and the set of checkpoint
files currently present on storage. -/
structure RetentionState where
  pool : List (ℚ × ℕ)
  storage : Finset ℕ

/-- run_multi.py lines 433-441, one evaluation round: `torch.save`
writes the checkpoint file, `best_result.append((result["eval_f1"],
output_model_file))`, `best_result.sort(key=lambda x: x[0],
reverse=True)`, and if `len(best_result) > 3` the last element is popped
and its file removed from storage (`os.remove(model_to_remove)`).
Returns the new state together with the evicted entry, if any. -/
def stepRound (st : RetentionState) (eval_f1 : ℚ) (path : ℕ) :
    RetentionState × Option (ℚ × ℕ) :=
  let storage1 := insert path st.storage
  let pool1 := List.insertionSort poolOrder (st.pool ++ [(eval_f1, path)])
  if 3 < pool1.length then
    let evicted := pool1.getLastD (0, 0)
    (⟨pool1.dropLast, storage1.erase evicted.2⟩, some evicted)
  else
    (⟨pool1, storage1⟩, none)

/-- A sequence of evaluation rounds starting from the empty pool
(`best_result = list()`, run_multi.py line 292) and empty storage. -/
def runRounds (rounds : List (ℚ × ℕ)) : RetentionState :=
  rounds.foldl (fun st r => (stepRound st r.1 r.2).1) ⟨[], ∅⟩

/-- The pool is sorted by F1 descending. -/
def pool_sorted (l : List (ℚ × ℕ)) : Prop := l.Sorted poolOrder

/-- If the round evicted an entry, that entry's checkpoint file is no
longer on storage in the state produced by the round. -/
def evicted_deleted (res : RetentionState × Option (ℚ × ℕ)) : Prop :=
  ∀ e ∈ res.2, e.2 ∉ res.1.storage

lemma stepRound_pool_sorted (st : RetentionState) (eval_f1 : ℚ) (path : ℕ) :
    pool_sorted (stepRound st eval_f1 path).1.pool := by
  rw [stepRound]
  by_cases h : 3 < (List.insertionSort poolOrder (st.pool ++ [(eval_f1, path)])).length
  · simp only [h, if_true]
    exact List.Pairwise.sublist (List.dropLast_sublist _)
      (List.sorted_insertionSort poolOrder _)
  · simp only [h, if_false]
    exact List.sorted_insertionSort poolOrder _

lemma stepRound_pool_len (st : RetentionState) (eval_f1 : ℚ) (path : ℕ)
    (h : st.pool.length ≤ 3) : (stepRound st eval_f1 path).1.pool.length ≤ 3 := by
  rw [stepRound]
  by_cases h3 : 3 < (List.insertionSort poolOrder (st.pool ++ [(eval_f1, path)])).length
  · rw [if_pos h3]
    simp only [List.length_dropLast, List.length_insertionSort, List.length_append,
      List.length_singleton]
    omega
  · rw [if_neg h3]
    rw [List.length_insertionSort, List.length_append, List.length_singleton] at h3
    simp only [List.length_insertionSort, List.length_append, List.length_singleton]
    omega

lemma stepRound_evicted_deleted (st : RetentionState) (eval_f1 : ℚ) (path : ℕ) :
    evicted_deleted (stepRound st eval_f1 path) := by
  rw [stepRound, evicted_deleted]
  by_cases h3 : 3 < (List.insertionSort poolOrder (st.pool ++ [(eval_f1, path)])).length
  · simp only [h3, if_true, Option.mem_def, Option.some.injEq]
    intro e he
    subst he
    exact Finset.not_mem_erase _ _
  · simp only [h3, if_false]
    intro e he
    exact absurd he (by simp)

lemma runRounds_foldl_inv (rounds : List (ℚ × ℕ)) :
    ∀ st : RetentionState, st.pool.length ≤ 3 → pool_sorted st.pool →
      (rounds.foldl (fun st r => (stepRound st r.1 r.2).1) st).pool.length ≤ 3
      ∧ pool_sorted (rounds.foldl (fun st r => (stepRound st r.1 r.2).1) st).pool := by
  induction rounds with
  | nil => exact fun st h1 h2 => ⟨h1, h2⟩
  | cons r rs ih =>
    intro st h1 _
    exact ih _ (stepRound_pool_len st r.1 r.2 h1) (stepRound_pool_sorted st r.1 r.2)

/-- Claim C1: after any sequence of evaluation rounds the retention pool
holds at most 3 entries and is sorted by F1 descending, and whenever a
round evicts an entry, that entry's checkpoint file is deleted from
storage at the moment of eviction. -/
theorem retention_invariant (rounds : List (ℚ × ℕ)) (eval_f1 : ℚ) (path : ℕ) :
    (runRounds rounds).pool.length ≤ 3
    ∧ pool_sorted (runRounds rounds).pool
    ∧ evicted_deleted (stepRound (runRounds rounds) eval_f1 path) := by
  have h := runRounds_foldl_inv rounds ⟨[], ∅⟩ (by simp) (by simp [pool_sorted])
  exact ⟨h.1, h.2, stepRound_evicted_deleted _ _ _⟩

/-- Witness for C1 at a concrete round sequence. -/
theorem retention_invariant_witness :
    (runRounds [(80, 0), (85, 1)]).pool.length ≤ 3
    ∧ pool_sorted (runRounds [(80, 0), (85, 1)]).pool
    ∧ evicted_deleted (stepRound (runRounds [(80, 0), (85, 1)]) 75 2) :=
  retention_invariant [(80, 0), (85, 1)] 75 2

/-- Claim C9: inserting checkpoints with F1 values 80, 85, 70, 90 (files
0, 1, 2, 3) in that order leaves a pool of exactly 90, 85, 80 in
descending order; the file of the F1-70 entry has been removed from
storage while the other three remain. -/
theorem retention_scenario :
    (runRounds [(80, 0), (85, 1), (70, 2), (90, 3)]).pool = [(90, 3), (85, 1), (80, 0)]
    ∧ (2 : ℕ) ∉ (runRounds [(80, 0), (85, 1), (70, 2), (90, 3)]).storage
    ∧ (0 : ℕ) ∈ (runRounds [(80, 0), (85, 1), (70, 2), (90, 3)]).storage
    ∧ (1 : ℕ) ∈ (runRounds [(80, 0), (85, 1), (70, 2), (90, 3)]).storage
    ∧ (3 : ℕ) ∈ (runRounds [(80, 0), (85, 1), (70, 2), (90, 3)]).storage := by
  decide

/-- The observable training-loop state: `global_step` (run_multi.py line
291), the `wrap` early-stop flag (line 293), plus two observers:
`updates`, the number of `optimizer.step()` calls performed (lines
338-343), and `lateUpdates`, the number of `optimizer.step()` calls
performed from a state in which `global_step` had already reached
`max_train_steps`. -/
structure TrainState where
  global_step : ℕ
  wrap : Bool
  updates : ℕ
  lateUpdates : ℕ

/-- run_multi.py lines 299-469, the body of the inner loop for one
micro-batch `step` in an epoch of `n = len(train_dataloader)` batches
with `ga = gradient_accumulation_steps`: if `wrap` is already set the
batch is not executed (the loop has broken out); otherwise, when
`(step + 1) % ga == 0 or step == n - 1` holds (line 337) the optimizer
steps (`updates` rises by 1) and `global_step += 1` (line 346), and
otherwise neither changes; finally line 467 checks
`global_step >= max_train_steps` and sets `wrap` (line 468). The
evaluation block (lines 349-465) performs no parameter update and does
not touch `global_step`, so it is not represented. `lateUpdates` counts
optimizer steps taken from a state where `global_step` had already
reached `max_train_steps`. -/
def train_batch (maxSteps n ga : ℕ) (st : TrainState) (step : ℕ) : TrainState :=
  if st.wrap then st
  else if (step + 1) % ga = 0 ∨ step = n - 1 then
    { global_step := st.global_step + 1
      wrap := if maxSteps ≤ st.global_step + 1 then true else st.wrap
      updates := st.updates + 1
      lateUpdates := if maxSteps ≤ st.global_step then st.lateUpdates + 1 else st.lateUpdates }
  else
    { global_step := st.global_step
      wrap := if maxSteps ≤ st.global_step then true else st.wrap
      updates := st.updates
      lateUpdates := st.lateUpdates }

/-- One epoch: the inner loop `for step, batch in enumerate(train_dataloader)`
(run_multi.py line 299). -/
def run_epoch (maxSteps n ga : ℕ) (st : TrainState) : TrainState :=
  (List.range n).foldl (train_batch maxSteps n ga) st

/-- The full training loop (run_multi.py lines 291-469): `global_step = 0`,
`wrap = False`, then `for _ in range(int(args.num_train_epochs))` with the
`if wrap: break` check at the top of each epoch (line 298). -/
def run_training (maxSteps n ga epochs : ℕ) : TrainState :=
  (List.range epochs).foldl
    (fun st _ => if st.wrap then st else run_epoch maxSteps n ga st) ⟨0, false, 0, 0⟩

/-- Claim C4: on every executed micro-batch (one on which the loop has
not already broken out), `global_step` increases by exactly 1 when the
batch index satisfies `(step + 1) % gradient_accumulation_steps == 0` or
is the final micro-batch of the epoch, and stays unchanged otherwise;
the optimizer-update count moves in lockstep with it, so `global_step`
increments exactly on parameter updates and never on any other
micro-batch. -/
theorem global_step_update (maxSteps n ga gs upd late step : ℕ) :
    (train_batch maxSteps n ga ⟨gs, false, upd, late⟩ step).global_step
      = gs + (if (step + 1) % ga = 0 ∨ step = n - 1 then 1 else 0)
    ∧ (train_batch maxSteps n ga ⟨gs, false, upd, late⟩ step).updates
      = upd + (if (step + 1) % ga = 0 ∨ step = n - 1 then 1 else 0) := by
  by_cases h : (step + 1) % ga = 0 ∨ step = n - 1 <;>
    simp [train_batch, h]

/-- The inductive invariant for C5: no update has ever been performed
from a state with `global_step ≥ max_train_steps`, `global_step` never
exceeds `max_train_steps`, and while `wrap` is unset `global_step` is
strictly below `max_train_steps`. -/
def no_late_updates (maxSteps : ℕ) (st : TrainState) : Prop :=
  st.lateUpdates = 0 ∧ st.global_step ≤ maxSteps
    ∧ (st.wrap = false → st.global_step < maxSteps)

lemma train_batch_inv (maxSteps n ga step : ℕ) (st : TrainState)
    (h : no_late_updates maxSteps st) :
    no_late_updates maxSteps (train_batch maxSteps n ga st step) := by
  obtain ⟨h1, h2, h3⟩ := h
  by_cases hw : st.wrap = true
  · simp only [train_batch, hw, if_true]
    exact ⟨h1, h2, h3⟩
  · have hwf : st.wrap = false := by simpa using hw
    have hlt : st.global_step < maxSteps := h3 hwf
    by_cases hu : (step + 1) % ga = 0 ∨ step = n - 1
    · simp only [train_batch, hwf, Bool.false_eq_true, if_false, hu, if_true,
        no_late_updates]
      refine ⟨by rw [if_neg (by omega)]; exact h1, by omega, ?_⟩
      intro hwx
      by_cases hle : maxSteps ≤ st.global_step + 1
      · rw [if_pos hle] at hwx
        exact absurd hwx (by simp)
      · omega
    · simp only [train_batch, hwf, Bool.false_eq_true, if_false, hu, no_late_updates]
      refine ⟨h1, h2, ?_⟩
      intro hwx
      by_cases hle : maxSteps ≤ st.global_step
      · rw [if_pos hle] at hwx
        exact absurd hwx (by simp)
      · omega

lemma run_epoch_foldl_inv (maxSteps n ga : ℕ) (l : List ℕ) :
    ∀ st : TrainState, no_late_updates maxSteps st →
      no_late_updates maxSteps (l.foldl (train_batch maxSteps n ga) st) := by
  induction l with
  | nil => exact fun st h => h
  | cons a l ih => exact fun st h => ih _ (train_batch_inv maxSteps n ga a st h)

lemma run_training_foldl_inv (maxSteps n ga : ℕ) (l : List ℕ) :
    ∀ st : TrainState, no_late_updates maxSteps st →
      no_late_updates maxSteps
        (l.foldl (fun st _ => if st.wrap then st else run_epoch maxSteps n ga st) st) := by
  induction l with
  | nil => exact fun st h => h
  | cons a l ih =>
    intro st h
    refine ih _ ?_
    show no_late_updates maxSteps (if st.wrap then st else run_epoch maxSteps n ga st)
    by_cases hw : st.wrap = true
    · rw [if_pos hw]; exact h
    · rw [if_neg hw]; exact run_epoch_foldl_inv maxSteps n ga (List.range n) st h

/-- Claim C5: in any run with a positive `max_train_steps` budget, no
parameter update is ever performed from a state in which `global_step`
has already reached `max_train_steps` (the check at run_multi.py line
467 breaks the batch loop and, through `wrap`, all remaining epochs),
and `global_step` never exceeds `max_train_steps`. -/
theorem stop_at_max_train_steps (maxSteps n ga epochs : ℕ) (h : 1 ≤ maxSteps) :
    (run_training maxSteps n ga epochs).lateUpdates = 0
    ∧ (run_training maxSteps n ga epochs).global_step ≤ maxSteps := by
  have h0 : no_late_updates maxSteps ⟨0, false, 0, 0⟩ := ⟨rfl, Nat.zero_le _, fun _ => h⟩
  have hinv := run_training_foldl_inv maxSteps n ga (List.range epochs) ⟨0, false, 0, 0⟩ h0
  exact ⟨hinv.1, hinv.2.1⟩

/-- Witness for C5: a concrete run (budget 2, 3 batches per epoch, no
gradient accumulation, 5 epochs) performs no update at or past the
budget, and stops with `global_step` within the budget. -/
theorem stop_at_max_train_steps_witness :
    1 ≤ 2 ∧ ((run_training 2 3 1 5).lateUpdates = 0
      ∧ (run_training 2 3 1 5).global_step ≤ 2) :=
  ⟨by decide, stop_at_max_train_steps 2 3 1 5 (by decide)⟩

/-- run_multi.py line 135: `task_class["csc"]`. -/
def task_class_csc : List String := ["sighan", "ecspell", "sghspell"]

/-- run_multi.py line 136: `task_class["seq"]`. -/
def task_class_seq : List String := ["tnews", "afqmc"]

/-- What an evaluation (or test) pass is set up to do: which task's data
directory and processor are used (`processors[task_name]`,
`os.path.join(args.data_dir, task_name)`), and whether decoding routes
through the CSC branch (`task_name in task_class["csc"]`). -/
structure EvalPlan where
  task : String
  decode_csc : Bool

/-- run_multi.py lines 261-264 (the `do_eval` setup):
`task_name = task_names[0]`, then the processor, the data directory and
the decode route are all derived from that `task_name`. An empty task
list is an `IndexError` (`none`). -/
def eval_setup : List String → Option EvalPlan
  | [] => none
  | t :: _ => some ⟨t, task_class_csc.contains t⟩

/-- run_multi.py lines 470-473 (the `do_test` setup): identical
selection, `task_name = task_names[0]`. -/
def test_setup : List String → Option EvalPlan
  | [] => none
  | t :: _ => some ⟨t, task_class_csc.contains t⟩

/-- Claim C6: for every non-empty configured task list, both the
evaluation cadence and the end-of-run test target exactly the first
configured task - data loading and decode routing are derived from it -
and the chosen plan is independent of whatever further tasks were
configured and trained. -/
theorem eval_first_task_only (t : String) (rest rest2 : List String) :
    eval_setup (t :: rest) = some ⟨t, task_class_csc.contains t⟩
    ∧ test_setup (t :: rest) = some ⟨t, task_class_csc.contains t⟩
    ∧ eval_setup (t :: rest) = eval_setup (t :: rest2)
    ∧ test_setup (t :: rest) = test_setup (t :: rest2)
    ∧ eval_setup (t :: rest) = test_setup (t :: rest) :=
  ⟨rfl, rfl, rfl, rfl, rfl⟩

/-- A SEQ-family example, reduced to the attribute the label-vocabulary
claim is about: its categorical label. -/
structure SeqExample where
  label : String

/-- Modelled from the spec: `InputExample.get_label_list` lives in
`multiTask/MultiTaskDataset.py`, which is not part of this repository
snapshot. Per the spec (4.1), it builds the label vocabulary from an
example list; it is embedded here as the labels of the list with
duplicates removed, first occurrence first. -/
def get_label_list (examples : List SeqExample) : List String :=
  examples.foldl (fun acc ex => if acc.contains ex.label then acc else acc ++ [ex.label]) []

/-- Modelled from the spec: `seq_convert_examples_to_features` (also in
the missing `multiTask/MultiTaskDataset.py`) maps an example's
categorical label through the label vocabulary to its index. -/
def seq_label_id (label_list : List String) (ex : SeqExample) : ℕ :=
  label_list.indexOf ex.label

/-- run_multi.py lines 269-270 (and identically lines 478-479): the
label ids of the eval (resp. test) examples as the code computes them,
with `label_list = InputExample.get_label_list(eval_examples)` rebuilt
from the eval (resp. test) example set itself. -/
def eval_label_ids (eval_examples : List SeqExample) : List ℕ :=
  eval_examples.map (seq_label_id (get_label_list eval_examples))

/-- The behaviour claim C7 asserts (following the spec's words): the
label vocabulary is built once from the training examples (run_multi.py
line 186) and that same mapping is reused for the eval/test examples. -/
def eval_label_ids_claim (train_examples eval_examples : List SeqExample) : List ℕ :=
  eval_examples.map (seq_label_id (get_label_list train_examples))

/-- Claim C7 fails on the code: with training labels `["neg", "pos"]`
("pos" has index 1) and a single eval example labelled "pos", the code
(which rebuilds the vocabulary from the eval set, run_multi.py lines
269 and 478) assigns "pos" the index 0, not the training index 1 - the
index drift the spec says the fixed vocabulary must prevent. -/
theorem label_vocab_rebuilt :
    get_label_list [⟨"neg"⟩, ⟨"pos"⟩] = ["neg", "pos"]
    ∧ eval_label_ids [⟨"pos"⟩] = [0]
    ∧ eval_label_ids_claim [⟨"neg"⟩, ⟨"pos"⟩] [⟨"pos"⟩] = [1]
    ∧ eval_label_ids [⟨"pos"⟩] ≠ eval_label_ids_claim [⟨"neg"⟩, ⟨"pos"⟩] [⟨"pos"⟩] := by
  decide

/-- The observable startup actions relevant to C8: a call of a
processor's `get_train_examples`/`get_test_examples` (data loading,
run_multi.py lines 180, 264, 473) for a task. -/
inductive StartupAction where
  | loaded (task : String)

/-- run_multi.py lines 127-133: the keys of `processors_all`. -/
def processors_all : List String := ["sighan", "ecspell", "sghspell", "tnews", "afqmc"]

/-- run_multi.py lines 159-161: the startup loop
`for task_name in task_names: if task_name not in processors_all:
raise ValueError("Task not found: %s" % task_name)`. -/
def checkTaskNames : List String → Except String Unit
  | [] => Except.ok ()
  | t :: ts =>
    if processors_all.contains t then checkTaskNames ts
    else Except.error ("Task not found: " ++ t)

/-- The first entry of the task-name list that is not a recognized task,
if any. -/
def first_unrecognized : List String → Option String
  | [] => none
  | t :: ts => if processors_all.contains t then first_unrecognized ts else some t

/-- run_multi.py startup order: the task-name check (lines 159-161) runs
before any data loading (the first `get_train_examples` call is at line
180 and every other loading call comes later still). The result pairs
the data-loading actions performed with the outcome: on a check failure
the raised error propagates and no loading action happens. -/
def startup (task_names : List String) : List StartupAction × Except String Unit :=
  match checkTaskNames task_names with
  | Except.error e => ([], Except.error e)
  | Except.ok _ => (task_names.map StartupAction.loaded, Except.ok ())

lemma checkTaskNames_of_none :
    ∀ task_names, first_unrecognized task_names = none →
      checkTaskNames task_names = Except.ok () := by
  intro task_names
  induction task_names with
  | nil => intro _; rfl
  | cons t ts ih =>
    intro h
    rw [first_unrecognized] at h
    rw [checkTaskNames]
    by_cases hc : processors_all.contains t
    · rw [if_pos hc] at h ⊢
      exact ih h
    · rw [if_neg hc] at h
      exact absurd h (by simp)

lemma checkTaskNames_of_some :
    ∀ task_names badT, first_unrecognized task_names = some badT →
      checkTaskNames task_names = Except.error ("Task not found: " ++ badT) := by
  intro task_names
  induction task_names with
  | nil => intro badT h; exact absurd h (by simp [first_unrecognized])
  | cons t ts ih =>
    intro badT h
    rw [first_unrecognized] at h
    rw [checkTaskNames]
    by_cases hc : processors_all.contains t
    · rw [if_pos hc] at h ⊢
      exact ih badT h
    · rw [if_neg hc] at h ⊢
      rw [Option.some_inj] at h
      rw [h]

lemma first_unrecognized_none_iff :
    ∀ task_names, first_unrecognized task_names = none
      ↔ task_names.all (fun t => processors_all.contains t) = true := by
  intro task_names
  induction task_names with
  | nil => simp [first_unrecognized]
  | cons t ts ih =>
    rw [first_unrecognized, List.all_cons]
    by_cases hc : processors_all.contains t
    · rw [if_pos hc, hc]
      simpa using ih
    · rw [if_neg hc]
      simp only [Bool.and_eq_true]
      constructor
      · intro h; exact absurd h (by simp)
      · intro h; exact absurd h.1 hc

/-- Claim C8: if some entry of the task-name list is unrecognized, the
startup fails with the fatal configuration error (`ValueError`, which
the spec calls `ConfigurationError`) and no data loading is performed;
if every entry is recognized, no such error is raised and every task's
data is loaded. A list has an unrecognized entry exactly when
`first_unrecognized` returns one. -/
theorem unknown_task_fatal (task_names : List String) :
    (∀ badT, first_unrecognized task_names = some badT →
      (startup task_names).2 = Except.error ("Task not found: " ++ badT)
      ∧ (startup task_names).1 = [])
    ∧ (first_unrecognized task_names = none →
      (startup task_names).2 = Except.ok ()
      ∧ (startup task_names).1 = task_names.map StartupAction.loaded)
    ∧ (first_unrecognized task_names = none
      ↔ task_names.all (fun t => processors_all.contains t) = true) := by
  refine ⟨?_, ?_, first_unrecognized_none_iff task_names⟩
  · intro badT h
    rw [startup, checkTaskNames_of_some task_names badT h]
    exact ⟨rfl, rfl⟩
  · intro h
    rw [startup, checkTaskNames_of_none task_names h]
    exact ⟨rfl, rfl⟩

/-- Witness for C8: the list `["sighan", "bogus"]` fails with the
configuration error before loading anything, while `["sighan", "tnews"]`
passes the check and loads both tasks. -/
theorem unknown_task_fatal_witness :
    ((startup ["sighan", "bogus"]).2 = Except.error ("Task not found: " ++ "bogus")
      ∧ (startup ["sighan", "bogus"]).1 = [])
    ∧ ((startup ["sighan", "tnews"]).2 = Except.ok ()
      ∧ (startup ["sighan", "tnews"]).1
          = [StartupAction.loaded "sighan", StartupAction.loaded "tnews"]) :=
  ⟨(unknown_task_fatal ["sighan", "bogus"]).1 "bogus" (by decide),
   (unknown_task_fatal ["sighan", "tnews"]).2.1 (by decide)⟩

/-- A heap of rank-2 tensors, for stating what `mask_tokens` does and
does not mutate: `mats r` is the contents of the tensor at reference
`r`, and `next` is the first unallocated reference. A rank-1 tensor
(the `task_ids` vector) is stored as the column 0 of its matrix. -/
structure Store where
  mats : ℕ → ℕ → ℕ → ℤ
  next : ℕ

/-- Read the tensor at reference `r`. -/
def Store.read (s : Store) (r : ℕ) : ℕ → ℕ → ℤ := s.mats r

/-- Allocate a fresh tensor with contents `m` (`tensor.clone()`
allocates); returns the new store and the fresh reference. -/
def Store.alloc (s : Store) (m : ℕ → ℕ → ℤ) : Store × ℕ :=
  (⟨fun r => if r = s.next then m else s.mats r, s.next + 1⟩, s.next)

/-- Overwrite the tensor at reference `r` (in-place indexed assignment). -/
def Store.write (s : Store) (r : ℕ) (m : ℕ → ℕ → ℤ) : Store :=
  ⟨fun t => if t = r then m else s.mats t, s.next⟩

/-- run_multi.py lines 25-49 at the heap level: `mask_tokens` receives
references to the caller's `inputs`, `targets` and `task_ids` tensors,
rebinds `inputs` to a fresh clone (line 27, `inputs = inputs.clone()`),
computes the masked indices from the cloned contents (identical to the
caller's contents), performs the in-place masked assignment on the
clone only (line 47), and returns the clone's reference. -/
def mask_tokens_heap (s : Store) (inpR tgtR taskR : ℕ) (tok : Tokenizer)
    (mask_mode : String) (noise_probability : ℚ) (draw : ℕ → ℕ → Bool) : Store × ℕ :=
  let inputs := s.read inpR
  let targets := s.read tgtR
  let task_ids := fun i => s.read taskR i 0
  let alloc1 := s.alloc inputs
  let mi := masked_indices inputs targets task_ids tok mask_mode noise_probability draw
  let s2 := alloc1.1.write alloc1.2 (fun i j => if mi i j then tok.mask_token_id else inputs i j)
  (s2, alloc1.2)

/-- Every position of the returned tensor is either the corresponding
input position or the mask-token id. -/
def output_in_range (inputs out : ℕ → ℕ → ℤ) (maskId : ℤ) : Prop :=
  ∀ i j, out i j = inputs i j ∨ out i j = maskId

/-- Claim C10: `mask_tokens` leaves the caller's `inputs`, `targets` and
`task_ids` tensors unchanged - masking happens on a fresh clone, whose
reference (distinct from all three arguments) is returned - and every
position of the returned tensor equals the corresponding input position
or the tokenizer's mask-token id. -/
theorem mask_tokens_frame (s : Store) (inpR tgtR taskR : ℕ) (tok : Tokenizer)
    (mask_mode : String) (noise_probability : ℚ) (draw : ℕ → ℕ → Bool)
    (h1 : inpR < s.next) (h2 : tgtR < s.next) (h3 : taskR < s.next) :
    ((mask_tokens_heap s inpR tgtR taskR tok mask_mode noise_probability draw).1.read inpR
      = s.read inpR)
    ∧ ((mask_tokens_heap s inpR tgtR taskR tok mask_mode noise_probability draw).1.read tgtR
      = s.read tgtR)
    ∧ ((mask_tokens_heap s inpR tgtR taskR tok mask_mode noise_probability draw).1.read taskR
      = s.read taskR)
    ∧ (mask_tokens_heap s inpR tgtR taskR tok mask_mode noise_probability draw).2 ≠ inpR
    ∧ (mask_tokens_heap s inpR tgtR taskR tok mask_mode noise_probability draw).2 ≠ tgtR
    ∧ (mask_tokens_heap s inpR tgtR taskR tok mask_mode noise_probability draw).2 ≠ taskR
    ∧ output_in_range (s.read inpR)
        ((mask_tokens_heap s inpR tgtR taskR tok mask_mode noise_probability draw).1.read
          (mask_tokens_heap s inpR tgtR taskR tok mask_mode noise_probability draw).2)
        tok.mask_token_id := by
  refine ⟨?_, ?_, ?_, ?_, ?_, ?_, ?_⟩
  · simp [mask_tokens_heap, Store.read, Store.alloc, Store.write, Nat.ne_of_lt h1]
  · simp [mask_tokens_heap, Store.read, Store.alloc, Store.write, Nat.ne_of_lt h2]
  · simp [mask_tokens_heap, Store.read, Store.alloc, Store.write, Nat.ne_of_lt h3]
  · exact fun he => absurd (he ▸ h1) (by simp [mask_tokens_heap, Store.alloc])
  · exact fun he => absurd (he ▸ h2) (by simp [mask_tokens_heap, Store.alloc])
  · exact fun he => absurd (he ▸ h3) (by simp [mask_tokens_heap, Store.alloc])
  · intro i j
    by_cases hm : masked_indices (s.mats inpR) (s.mats tgtR) (fun i => s.mats taskR i 0)
        tok mask_mode noise_probability draw i j = true
    · right
      simp [mask_tokens_heap, Store.read, Store.alloc, Store.write, hm]
    · left
      simp [mask_tokens_heap, Store.read, Store.alloc, Store.write, hm]

def c_store : Store := ⟨fun _ _ _ => 0, 3⟩

/-- Witness for C10 at a concrete three-tensor store. -/
theorem mask_tokens_frame_witness :
    ((mask_tokens_heap c_store 0 1 2 c_tok "noerror" 1 c_draw).1.read 0 = c_store.read 0)
    ∧ ((mask_tokens_heap c_store 0 1 2 c_tok "noerror" 1 c_draw).1.read 1 = c_store.read 1)
    ∧ ((mask_tokens_heap c_store 0 1 2 c_tok "noerror" 1 c_draw).1.read 2 = c_store.read 2)
    ∧ (mask_tokens_heap c_store 0 1 2 c_tok "noerror" 1 c_draw).2 ≠ 0
    ∧ (mask_tokens_heap c_store 0 1 2 c_tok "noerror" 1 c_draw).2 ≠ 1
    ∧ (mask_tokens_heap c_store 0 1 2 c_tok "noerror" 1 c_draw).2 ≠ 2
    ∧ output_in_range (c_store.read 0)
        ((mask_tokens_heap c_store 0 1 2 c_tok "noerror" 1 c_draw).1.read
          (mask_tokens_heap c_store 0 1 2 c_tok "noerror" 1 c_draw).2)
        c_tok.mask_token_id :=
  mask_tokens_frame c_store 0 1 2 c_tok "noerror" 1 c_draw (by decide) (by decide) (by decide)
